import Mathlib

/-!
Verification of the Tello video relay session lifecycle controller
(src/App.jsx, second controller variant, lines 428-711; the first variant
at lines 56-325 has identical lifecycle logic).

The controller state consists of the React state cells and refs:
errorMessage, isStreaming, commandSocket, ffmpegSessionId. Asynchronous
collaborators (UDP bind/send outcomes, FFmpegKit launch outcome and
completion callback, teardown call outcomes) are modelled as explicit
environment parameters; externally visible actions (socket creation, bind,
datagram sends, delays, relay launch/cancel, socket close) are recorded in
an event trace. All callbacks run on a single event-processing context, so
each handler is modelled as an atomic state transformer.
-/

namespace TelloStream

/-- Constants from src/App.jsx lines 420-426. -/
def TELLO_IP : String := "192.168.10.1"

def TELLO_COMMAND_PORT : Nat := 8889

def TELLO_VIDEO_PORT : Nat := 11111

def LOCAL_COMMAND_PORT_BIND : Nat := 9000

def LOCAL_VIDEO_INPUT_PORT : Nat := TELLO_VIDEO_PORT

def LOCAL_VIDEO_OUTPUT_HTTP_PORT : Nat := 11112

/-- Controller state: the two useState cells and the two useRef handles of
the App component (lines 429-432). The video player ref carries no
lifecycle state and is omitted. -/
structure AppState where
  errorMessage : String
  isStreaming : Bool
  commandSocket : Option Nat
  ffmpegSessionId : Option Nat
  deriving Repr, DecidableEq

/-- The state when nothing is acquired: no error, not streaming, both
handles null. This is the state the component mounts in. -/
def initialState : AppState :=
  { errorMessage := "", isStreaming := false,
    commandSocket := none, ffmpegSessionId := none }

/-- Externally visible actions of the controller, recorded as a trace. -/
inductive Event where
  | createSocket : Event
  | bindSocket : Nat → Event
  | send : String → Event
  | delayMs : Nat → Event
  | launchRelay : String → Event
  | cancelRelay : Nat → Event
  | closeSocket : Event
  deriving Repr, DecidableEq

/-- FFmpegKit return-code test: ReturnCode.isSuccess is value 0. -/
def isSuccessRC (rc : Int) : Bool := rc = 0

/-- FFmpegKit return-code test: ReturnCode.isCancel is value 255. -/
def isCancelRC (rc : Int) : Bool := rc = 255

/-- What the completion callback receives from a finished FFmpeg session:
its id, its return code, and the captured log text
(getAllLogsAsString). -/
structure CompletedSession where
  sessionId : Nat
  returnCode : Int
  logs : String

/-- Environment outcomes consumed by cleanup (lines 436-464): whether
FFmpegKit.cancel throws and whether socket.close throws. -/
structure CleanupEnv where
  cancelThrows : Bool
  closeThrows : Bool

/-- FFmpegKit.cancel as a fallible call. -/
def cancelCall (throws : Bool) (sid : Nat) : Except String Unit :=
  if throws then Except.error ("cancel failed for " ++ toString sid)
  else Except.ok ()

/-- socket.close as a fallible call. -/
def closeCall (throws : Bool) : Except String Unit :=
  if throws then Except.error "close failed" else Except.ok ()

/-- A try/catch block whose catch clause only logs: the error is swallowed
and the block completes normally (cleanup lines 444-450 and 456-462). -/
def swallow (r : Except String Unit) : Except String Unit :=
  match r with
  | Except.ok _ => Except.ok ()
  | Except.error _ => Except.ok ()

/-- cleanup (lines 436-464): set isStreaming false and errorMessage empty;
if an FFmpeg session id is tracked, try to cancel it (errors logged and
swallowed) and null the id in a finally block; if the socket exists, try to
close it (errors logged and swallowed) and null it in a finally block.
Returns the resulting state and the trace of teardown actions; the Except
layer records whether the call as a whole raises. -/
def cleanupE (env : CleanupEnv) (s : AppState) :
    Except String (AppState × List Event) :=
  let s1 : AppState := { s with isStreaming := false, errorMessage := "" }
  let step1 : Except String (AppState × List Event) :=
    match s1.ffmpegSessionId with
    | some sid =>
        match swallow (cancelCall env.cancelThrows sid) with
        | Except.ok _ =>
            Except.ok ({ s1 with ffmpegSessionId := none },
              [Event.cancelRelay sid])
        | Except.error e => Except.error e
    | none => Except.ok (s1, [])
  match step1 with
  | Except.ok (s2, tr1) =>
      match s2.commandSocket with
      | some _ =>
          match swallow (closeCall env.closeThrows) with
          | Except.ok _ =>
              Except.ok ({ s2 with commandSocket := none },
                tr1 ++ [Event.closeSocket])
          | Except.error e => Except.error e
      | none => Except.ok (s2, tr1)
  | Except.error e => Except.error e

/-- The teardown actions cleanup performs from state s: a cancel for the
tracked session if any, then a close for the socket if any. -/
def cleanupTrace (s : AppState) : List Event :=
  (match s.ffmpegSessionId with
   | some sid => [Event.cancelRelay sid]
   | none => []) ++
  (match s.commandSocket with
   | some _ => [Event.closeSocket]
   | none => [])

/-- Environment outcomes consumed by handleStartStream (lines 570-628):
the id dgram.createSocket assigns, the outcome of socket.bind, the outcome
of each datagram send (by command text), and the outcome of
FFmpegKit.executeAsync (the new session id, or the thrown error
message). -/
structure StartEnv where
  socketHandle : Nat
  bindResult : Except String Unit
  sendResult : String → Except String Unit
  launchResult : Except String Nat

/-- sendCommand (lines 479-498): reject if the socket ref is null;
otherwise send the command text as one datagram to the Tello command
endpoint; on send error set errorMessage to "Failed to send command: " plus
the error message and reject; on success resolve. -/
def sendCommandRun (env : StartEnv) (cmd : String) (s : AppState) :
    AppState × List Event × Except String Unit :=
  match s.commandSocket with
  | none => (s, [], Except.error "Socket not initialized")
  | some _ =>
      match env.sendResult cmd with
      | Except.ok _ => (s, [Event.send cmd], Except.ok ())
      | Except.error m =>
          ({ s with errorMessage := "Failed to send command: " ++ m },
           [Event.send cmd], Except.error m)

/-- The FFmpeg invocation argument string (line 513). -/
def ffmpegCommandString : String :=
  "-f h264 -analyzeduration 1000000 -probesize 1000000 -fflags discardcorrupt -fflags nobuffer -flags low_delay -avioflags direct -i udp://0.0.0.0:"
    ++ toString LOCAL_VIDEO_INPUT_PORT
    ++ "?timeout=5000000 -c:v copy -f mpegts -listen 1 http://127.0.0.1:"
    ++ toString LOCAL_VIDEO_OUTPUT_HTTP_PORT

/-- startFFmpeg (lines 501-566): clear errorMessage; if a session id is
still tracked, cancel it and null the ref; then executeAsync the FFmpeg
command. On success store the new session id and set isStreaming true. If
executeAsync throws, the local catch sets errorMessage to
"Failed to start FFmpeg: " plus the error message and isStreaming false —
the error does NOT propagate to the caller. -/
def startFFmpegRun (env : StartEnv) (s : AppState) : AppState × List Event :=
  let s1 : AppState := { s with errorMessage := "" }
  let (s2, tr1) :=
    match s1.ffmpegSessionId with
    | some sid =>
        ({ s1 with ffmpegSessionId := none }, [Event.cancelRelay sid])
    | none => (s1, ([] : List Event))
  match env.launchResult with
  | Except.ok sid =>
      ({ s2 with ffmpegSessionId := some sid, isStreaming := true },
       tr1 ++ [Event.launchRelay ffmpegCommandString])
  | Except.error m =>
      ({ s2 with
          errorMessage := "Failed to start FFmpeg: " ++ m,
          isStreaming := false },
       tr1 ++ [Event.launchRelay ffmpegCommandString])

/-- The catch block of handleStartStream (lines 623-627): set errorMessage
to "Initialization failed: " plus the error message, then await cleanup.
cleanup never raises (every fallible call inside it is wrapped), so the
error fallback arm is dead code kept for totality. -/
def startCatch (cenv : CleanupEnv) (m : String) (s : AppState)
    (tr : List Event) : AppState × List Event :=
  let s1 : AppState := { s with errorMessage := "Initialization failed: " ++ m }
  match cleanupE cenv s1 with
  | Except.ok (s2, tr2) => (s2, tr ++ tr2)
  | Except.error _ => (s1, tr)

/-- handleStartStream (lines 570-628): guard (return if isStreaming or a
socket or session ref exists); clear errorMessage and isStreaming; create
the UDP socket; bind it to port 9000 (a bind error rejects with message
"Failed to bind socket to port 9000: " plus the cause); send "command",
wait 500 ms, send "streamon", wait 500 ms; then await startFFmpeg. Any
rejection up to and including the sends lands in the catch block; a launch
failure is swallowed inside startFFmpeg and does not. -/
def handleStartStream (env : StartEnv) (cenv : CleanupEnv) (s : AppState) :
    AppState × List Event :=
  if s.isStreaming || s.commandSocket.isSome || s.ffmpegSessionId.isSome then
    (s, [])
  else
    let s1 : AppState := { s with errorMessage := "", isStreaming := false }
    let s2 : AppState := { s1 with commandSocket := some env.socketHandle }
    let tr0 : List Event := [Event.createSocket]
    match env.bindResult with
    | Except.error m =>
        startCatch cenv
          ("Failed to bind socket to port "
            ++ toString LOCAL_COMMAND_PORT_BIND ++ ": " ++ m)
          s2 (tr0 ++ [Event.bindSocket LOCAL_COMMAND_PORT_BIND])
    | Except.ok _ =>
        let tr1 := tr0 ++ [Event.bindSocket LOCAL_COMMAND_PORT_BIND]
        match sendCommandRun env "command" s2 with
        | (s3, trS, Except.error m) => startCatch cenv m s3 (tr1 ++ trS)
        | (s3, trS, Except.ok _) =>
            let tr2 := tr1 ++ trS ++ [Event.delayMs 500]
            match sendCommandRun env "streamon" s3 with
            | (s4, trS2, Except.error m) => startCatch cenv m s4 (tr2 ++ trS2)
            | (s4, trS2, Except.ok _) =>
                let tr3 := tr2 ++ trS2 ++ [Event.delayMs 500]
                let p := startFFmpegRun env s4
                (p.1, tr3 ++ p.2)

/-- The FFmpeg completion callback (lines 522-553): null the session ref
only if it still equals the completed session id; then on Success or
Cancel do nothing further; otherwise (Failed) fetch the full log (written
to the console), set errorMessage to the fixed text
"FFmpeg Error! Check console logs for details." and isStreaming false. -/
def ffmpegCompletionCallback (cs : CompletedSession) (s : AppState) :
    AppState :=
  let s1 : AppState :=
    if s.ffmpegSessionId = some cs.sessionId then
      { s with ffmpegSessionId := none }
    else s
  if isSuccessRC cs.returnCode then s1
  else if isCancelRC cs.returnCode then s1
  else
    { s1 with
        errorMessage := "FFmpeg Error! Check console logs for details.",
        isStreaming := false }

/-- The socket error handler (lines 585-590): set errorMessage to
"UDP Socket error: " plus the fault message, then call cleanup. -/
def socketErrorHandler (cenv : CleanupEnv) (m : String) (s : AppState) :
    AppState × List Event :=
  let s1 : AppState := { s with errorMessage := "UDP Socket error: " ++ m }
  match cleanupE cenv s1 with
  | Except.ok (s2, tr) => (s2, tr)
  | Except.error _ => (s1, [])

/-- An event-loop operation delivered to the controller: a Start press, a
Disconnect press (cleanup), an asynchronous socket fault (deliverable only
while a socket exists to carry the handler), or an FFmpeg completion. -/
inductive Op where
  | start : StartEnv → CleanupEnv → Op
  | stop : CleanupEnv → Op
  | socketFault : CleanupEnv → String → Op
  | completion : CompletedSession → Op

/-- One event-loop dispatch. -/
def applyOp (s : AppState) (op : Op) : AppState :=
  match op with
  | Op.start env cenv => (handleStartStream env cenv s).1
  | Op.stop cenv =>
      match cleanupE cenv s with
      | Except.ok (s2, _) => s2
      | Except.error _ => s
  | Op.socketFault cenv m =>
      if s.commandSocket.isSome then (socketErrorHandler cenv m s).1 else s
  | Op.completion cs => ffmpegCompletionCallback cs s

/-- Run a sequence of settled operations from the mount state. -/
def run (ops : List Op) : AppState := ops.foldl applyOp initialState

/-- The trace of a start whose bind and both handshake sends succeed
(whatever the launch outcome). -/
def handshakeTrace : List Event :=
  [Event.createSocket, Event.bindSocket LOCAL_COMMAND_PORT_BIND,
   Event.send "command", Event.delayMs 500,
   Event.send "streamon", Event.delayMs 500,
   Event.launchRelay ffmpegCommandString]

lemma swallow_ok (r : Except String Unit) : swallow r = Except.ok () := by
  cases r <;> rfl

/-- cleanup never raises, always ends in the fully released state, and its
trace is the cancel/close pair determined by which handles were held. -/
lemma cleanupE_eq (env : CleanupEnv) (s : AppState) :
    cleanupE env s = Except.ok (initialState, cleanupTrace s) := by
  obtain ⟨em, ist, sock, ff⟩ := s
  cases sock <;> cases ff <;>
    simp [cleanupE, cleanupTrace, swallow_ok, initialState]

lemma startCatch_eq (cenv : CleanupEnv) (m : String) (s : AppState)
    (tr : List Event) :
    startCatch cenv m s tr =
      (initialState,
       tr ++ cleanupTrace { s with errorMessage := "Initialization failed: " ++ m }) := by
  simp [startCatch, cleanupE_eq]

lemma append_ne_empty (a b : String) (h : a ≠ "") : a ++ b ≠ "" := by
  intro hab
  apply h
  have h2 := congrArg String.data hab
  simp [String.data_append] at h2
  exact String.ext h2.1

/-- The re-entrancy guard: start returns untouched with an empty trace when
streaming or when either handle exists. -/
lemma hss_guard (env : StartEnv) (cenv : CleanupEnv) (s : AppState)
    (h : s.isStreaming = true ∨ s.commandSocket.isSome = true ∨
      s.ffmpegSessionId.isSome = true) :
    handleStartStream env cenv s = (s, []) := by
  have hg : (s.isStreaming || s.commandSocket.isSome ||
      s.ffmpegSessionId.isSome) = true := by
    rcases h with h | h | h <;> simp [h]
  simp [handleStartStream, hg]

/-- Bind failure path: the catch runs cleanup, so start settles in the
fully released state having created, bound and closed the socket. -/
lemma hss_bindFail (env : StartEnv) (cenv : CleanupEnv) (s : AppState)
    (m : String) (hs : s.isStreaming = false) (hc : s.commandSocket = none)
    (hf : s.ffmpegSessionId = none)
    (hb : env.bindResult = Except.error m) :
    handleStartStream env cenv s =
      (initialState,
       [Event.createSocket, Event.bindSocket LOCAL_COMMAND_PORT_BIND,
        Event.closeSocket]) := by
  simp [handleStartStream, hs, hc, hf, hb, startCatch_eq, cleanupTrace]

/-- First-send failure path: the catch runs cleanup; the socket was
created, bound and closed again, no relay launch was attempted, and the
settled state is fully released (error message included). -/
lemma hss_sendCommandFail (env : StartEnv) (cenv : CleanupEnv)
    (s : AppState) (m : String) (hs : s.isStreaming = false)
    (hc : s.commandSocket = none) (hf : s.ffmpegSessionId = none)
    (hb : env.bindResult = Except.ok ())
    (h1 : env.sendResult "command" = Except.error m) :
    handleStartStream env cenv s =
      (initialState,
       [Event.createSocket, Event.bindSocket LOCAL_COMMAND_PORT_BIND,
        Event.send "command", Event.closeSocket]) := by
  simp [handleStartStream, hs, hc, hf, hb, h1, sendCommandRun,
    startCatch_eq, cleanupTrace]

/-- Second-send failure path. -/
lemma hss_sendStreamonFail (env : StartEnv) (cenv : CleanupEnv)
    (s : AppState) (m : String) (hs : s.isStreaming = false)
    (hc : s.commandSocket = none) (hf : s.ffmpegSessionId = none)
    (hb : env.bindResult = Except.ok ())
    (h1 : env.sendResult "command" = Except.ok ())
    (h2 : env.sendResult "streamon" = Except.error m) :
    handleStartStream env cenv s =
      (initialState,
       [Event.createSocket, Event.bindSocket LOCAL_COMMAND_PORT_BIND,
        Event.send "command", Event.delayMs 500, Event.send "streamon",
        Event.closeSocket]) := by
  simp [handleStartStream, hs, hc, hf, hb, h1, h2, sendCommandRun,
    startCatch_eq, cleanupTrace]

/-- Successful start: handshake and launch succeed, the session id is
stored, streaming is on, and the trace is the strict handshake order. -/
lemma hss_ok (env : StartEnv) (cenv : CleanupEnv) (s : AppState)
    (sid : Nat) (hs : s.isStreaming = false) (hc : s.commandSocket = none)
    (hf : s.ffmpegSessionId = none)
    (hb : env.bindResult = Except.ok ())
    (h1 : env.sendResult "command" = Except.ok ())
    (h2 : env.sendResult "streamon" = Except.ok ())
    (hl : env.launchResult = Except.ok sid) :
    handleStartStream env cenv s =
      ({ errorMessage := "", isStreaming := true,
         commandSocket := some env.socketHandle,
         ffmpegSessionId := some sid }, handshakeTrace) := by
  simp [handleStartStream, hs, hc, hf, hb, h1, h2, hl, sendCommandRun,
    startFFmpegRun, handshakeTrace]

/-- Launch failure path: startFFmpeg swallows the error locally, so the
outer catch never runs — the socket stays open and no teardown happens. -/
lemma hss_launchFail (env : StartEnv) (cenv : CleanupEnv) (s : AppState)
    (m : String) (hs : s.isStreaming = false) (hc : s.commandSocket = none)
    (hf : s.ffmpegSessionId = none)
    (hb : env.bindResult = Except.ok ())
    (h1 : env.sendResult "command" = Except.ok ())
    (h2 : env.sendResult "streamon" = Except.ok ())
    (hl : env.launchResult = Except.error m) :
    handleStartStream env cenv s =
      ({ errorMessage := "Failed to start FFmpeg: " ++ m,
         isStreaming := false,
         commandSocket := some env.socketHandle,
         ffmpegSessionId := none }, handshakeTrace) := by
  simp [handleStartStream, hs, hc, hf, hb, h1, h2, hl, sendCommandRun,
    startFFmpegRun, handshakeTrace]

/-- The no-leak invariant: whenever the observable state reads as Idle (no
error message, not streaming), both handles have been released. -/
def leakFree (s : AppState) : Prop :=
  s.errorMessage = "" ∧ s.isStreaming = false →
    s.commandSocket = none ∧ s.ffmpegSessionId = none

lemma leakFree_initialState : leakFree initialState := by
  simp [leakFree, initialState]

lemma completion_leakFree (cs : CompletedSession) (s : AppState)
    (h : leakFree s) : leakFree (ffmpegCompletionCallback cs s) := by
  unfold ffmpegCompletionCallback
  by_cases hm : s.ffmpegSessionId = some cs.sessionId <;>
    by_cases hsu : isSuccessRC cs.returnCode = true <;>
      by_cases hca : isCancelRC cs.returnCode = true <;>
        simp only [hm, hsu, hca, if_true, if_false, if_pos, if_neg,
          Bool.not_eq_true, leakFree] at h ⊢ <;>
        simp_all [leakFree]

lemma applyOp_leakFree (s : AppState) (op : Op) (h : leakFree s) :
    leakFree (applyOp s op) := by
  cases op with
  | stop cenv =>
      simp only [applyOp, cleanupE_eq]
      exact leakFree_initialState
  | socketFault cenv m =>
      simp only [applyOp]
      cases hc : s.commandSocket.isSome with
      | false => simpa [hc] using h
      | true =>
          simp only [hc, if_true, socketErrorHandler, cleanupE_eq]
          exact leakFree_initialState
  | completion cs => exact completion_leakFree cs s h
  | start env cenv =>
      simp only [applyOp]
      cases hg : (s.isStreaming || s.commandSocket.isSome ||
          s.ffmpegSessionId.isSome) with
      | true =>
          rw [hss_guard env cenv s
            (by simpa [Bool.or_eq_true, or_assoc] using hg)]
          exact h
      | false =>
          have hs : s.isStreaming = false := by
            revert hg; cases s.isStreaming <;> simp
          have hc : s.commandSocket = none := by
            revert hg; cases s.commandSocket <;> simp
          have hf : s.ffmpegSessionId = none := by
            revert hg; cases s.ffmpegSessionId <;> simp
          rcases hb : env.bindResult with m | u
          · rw [hss_bindFail env cenv s m hs hc hf hb]
            exact leakFree_initialState
          · rcases h1 : env.sendResult "command" with m | u1
            · rw [hss_sendCommandFail env cenv s m hs hc hf hb h1]
              exact leakFree_initialState
            · rcases h2 : env.sendResult "streamon" with m | u2
              · rw [hss_sendStreamonFail env cenv s m hs hc hf hb h1 h2]
                exact leakFree_initialState
              · rcases hl : env.launchResult with m | sid
                · rw [hss_launchFail env cenv s m hs hc hf hb h1 h2 hl]
                  intro hcon
                  exact absurd hcon.1 (append_ne_empty _ _ (by decide))
                · rw [hss_ok env cenv s sid hs hc hf hb h1 h2 hl]
                  simp [leakFree]

/-- Every state reachable by a settled sequence of operations satisfies
the no-leak invariant. -/
lemma run_leakFree (ops : List Op) : leakFree (run ops) := by
  suffices H : ∀ s : AppState, leakFree s → leakFree (ops.foldl applyOp s) by
    exact H initialState leakFree_initialState
  induction ops with
  | nil => exact fun s hs => hs
  | cons op rest ih =>
      intro s hs
      exact ih (applyOp s op) (applyOp_leakFree s op hs)

/-! Concrete fixtures used by witnesses and counterexamples. -/

/-- A start environment where every asynchronous step succeeds and
executeAsync yields session id 7. -/
def envOk : StartEnv :=
  { socketHandle := 0, bindResult := Except.ok (),
    sendResult := fun _ => Except.ok (), launchResult := Except.ok 7 }

/-- As envOk, but FFmpegKit.executeAsync throws. -/
def envLaunchFail : StartEnv :=
  { envOk with launchResult := Except.error "boom" }

/-- As envOk, but every datagram send fails with a transport error. -/
def envSendFail : StartEnv :=
  { envOk with sendResult := fun _ => Except.error "EHOSTUNREACH" }

/-- A teardown environment where neither cancel nor close throws. -/
def cenv0 : CleanupEnv := { cancelThrows := false, closeThrows := false }

/-- A teardown environment where both cancel and close throw. -/
def cenvThrow : CleanupEnv := { cancelThrows := true, closeThrows := true }

/-- A streaming session: socket handle 0 held, FFmpeg session 7 tracked. -/
def streamingState : AppState :=
  { errorMessage := "", isStreaming := true,
    commandSocket := some 0, ffmpegSessionId := some 7 }

/-- A completion notice from superseded session 2 that Failed. -/
def staleFailedCompletion : CompletedSession :=
  { sessionId := 2, returnCode := 1, logs := "boom" }

/-- A completion notice from superseded session 2 that succeeded. -/
def staleSuccessCompletion : CompletedSession :=
  { sessionId := 2, returnCode := 0, logs := "" }

/-- A Failed completion of the tracked session 7 with log text X. -/
def failedCompletionX : CompletedSession :=
  { sessionId := 7, returnCode := 1, logs := "X" }

/-- A Failed completion of the tracked session 7 with log text Y. -/
def failedCompletionY : CompletedSession :=
  { sessionId := 7, returnCode := 1, logs := "Y" }

/-- A Success completion of the tracked session 7. -/
def successCompletion : CompletedSession :=
  { sessionId := 7, returnCode := 0, logs := "" }

/-! Claim C1 -/

/-- Claim C1 is false as stated: a completion callback whose session
identifier (2) differs from the tracked one (7), carrying a Failed return
code, still mutates the streaming flag and the error message — only the
tracked identifier is protected by the mismatch guard. -/
theorem completion_mismatch_failed_mutates :
    streamingState.ffmpegSessionId ≠ some staleFailedCompletion.sessionId ∧
    (ffmpegCompletionCallback staleFailedCompletion
        streamingState).isStreaming ≠ streamingState.isStreaming ∧
    (ffmpegCompletionCallback staleFailedCompletion
        streamingState).errorMessage ≠ streamingState.errorMessage ∧
    (ffmpegCompletionCallback staleFailedCompletion
        streamingState).ffmpegSessionId = streamingState.ffmpegSessionId := by
  decide

/-- Claim C1, amended: a relay completion callback whose session
identifier differs from the tracked one never touches the tracked
identifier, and when its outcome is Success or Cancelled it mutates no
session state at all; but a Failed outcome sets the error message and
clears the streaming flag even on an identifier mismatch. -/
theorem completion_mismatch_frame (cs : CompletedSession) (s : AppState)
    (hm : s.ffmpegSessionId ≠ some cs.sessionId) :
    (ffmpegCompletionCallback cs s).ffmpegSessionId = s.ffmpegSessionId ∧
    (isSuccessRC cs.returnCode = true ∨ isCancelRC cs.returnCode = true →
      ffmpegCompletionCallback cs s = s) ∧
    (isSuccessRC cs.returnCode = false → isCancelRC cs.returnCode = false →
      ffmpegCompletionCallback cs s =
        { s with
            errorMessage := "FFmpeg Error! Check console logs for details.",
            isStreaming := false }) := by
  unfold ffmpegCompletionCallback
  rw [if_neg hm]
  refine ⟨?_, ?_, ?_⟩
  · by_cases hsu : isSuccessRC cs.returnCode = true <;>
      by_cases hca : isCancelRC cs.returnCode = true <;> simp [hsu, hca]
  · rintro (hsu | hca)
    · simp [hsu]
    · by_cases hsu : isSuccessRC cs.returnCode = true <;> simp [hsu, hca]
  · intro hsu hca
    simp [hsu, hca]

/-- Witness for the amended C1 at a concrete mismatched Success
completion. -/
theorem completion_mismatch_frame_witness :
    streamingState.ffmpegSessionId ≠ some staleSuccessCompletion.sessionId ∧
    ((ffmpegCompletionCallback staleSuccessCompletion
        streamingState).ffmpegSessionId = streamingState.ffmpegSessionId ∧
     (isSuccessRC staleSuccessCompletion.returnCode = true ∨
        isCancelRC staleSuccessCompletion.returnCode = true →
       ffmpegCompletionCallback staleSuccessCompletion streamingState =
         streamingState) ∧
     (isSuccessRC staleSuccessCompletion.returnCode = false →
        isCancelRC staleSuccessCompletion.returnCode = false →
       ffmpegCompletionCallback staleSuccessCompletion streamingState =
         { streamingState with
             errorMessage := "FFmpeg Error! Check console logs for details.",
             isStreaming := false })) :=
  ⟨by decide,
   completion_mismatch_frame staleSuccessCompletion streamingState (by decide)⟩

/-! Claim C2 -/

/-- Claim C2 is false as stated: when executeAsync throws, startFFmpeg
swallows the error, so full teardown never runs — the command channel
stays open (non-null) and the trace contains no socket close. -/
theorem launch_failure_leaves_socket_open :
    (handleStartStream envLaunchFail cenv0 initialState).1.commandSocket =
      some 0 ∧
    (handleStartStream envLaunchFail cenv0 initialState).1.errorMessage =
      "Failed to start FFmpeg: boom" ∧
    Event.closeSocket ∉ (handleStartStream envLaunchFail cenv0 initialState).2 := by
  decide

/-- Claim C2, amended: if launching the relay throws, start settles with
the error message "Failed to start FFmpeg: " plus the cause, streaming
off and the relay handle absent — but no teardown runs: the command
channel remains open and non-null and the socket is never closed. -/
theorem launch_failure_no_teardown (env : StartEnv) (cenv : CleanupEnv)
    (s : AppState) (m : String) (hs : s.isStreaming = false)
    (hc : s.commandSocket = none) (hf : s.ffmpegSessionId = none)
    (hb : env.bindResult = Except.ok ())
    (h1 : env.sendResult "command" = Except.ok ())
    (h2 : env.sendResult "streamon" = Except.ok ())
    (hl : env.launchResult = Except.error m) :
    handleStartStream env cenv s =
      ({ errorMessage := "Failed to start FFmpeg: " ++ m,
         isStreaming := false,
         commandSocket := some env.socketHandle,
         ffmpegSessionId := none }, handshakeTrace) ∧
    Event.closeSocket ∉ handshakeTrace :=
  ⟨hss_launchFail env cenv s m hs hc hf hb h1 h2 hl, by decide⟩

/-- Witness for the amended C2 on the concrete launch-failure
environment. -/
theorem launch_failure_no_teardown_witness :
    envLaunchFail.bindResult = Except.ok () ∧
    envLaunchFail.sendResult "command" = Except.ok () ∧
    envLaunchFail.sendResult "streamon" = Except.ok () ∧
    envLaunchFail.launchResult = Except.error "boom" ∧
    (handleStartStream envLaunchFail cenv0 initialState =
      ({ errorMessage := "Failed to start FFmpeg: " ++ "boom",
         isStreaming := false,
         commandSocket := some envLaunchFail.socketHandle,
         ffmpegSessionId := none }, handshakeTrace) ∧
     Event.closeSocket ∉ handshakeTrace) :=
  ⟨rfl, rfl, rfl, rfl,
   launch_failure_no_teardown envLaunchFail cenv0 initialState "boom"
     rfl rfl rfl rfl rfl rfl rfl⟩

/-! Claim C3 -/

/-- Claim C3 is false as stated: on a Failed completion the error message
is the fixed text "FFmpeg Error! Check console logs for details." — it is
identical for log text X and log text Y, so it is not derived from the
captured log and the log is not attached to it (it goes to the console
only). -/
theorem failed_completion_message_not_from_log :
    ffmpegCompletionCallback failedCompletionX streamingState =
      ffmpegCompletionCallback failedCompletionY streamingState ∧
    (ffmpegCompletionCallback failedCompletionX streamingState).errorMessage =
      "FFmpeg Error! Check console logs for details." ∧
    (ffmpegCompletionCallback failedCompletionX streamingState).errorMessage ≠
      failedCompletionX.logs := by
  decide

/-- Claim C3, amended: a Failed relay completion while streaming yields an
error state with the fixed message "FFmpeg Error! Check console logs for
details." (the full captured log is written to the console, not attached
to the message) and turns the streaming flag off, disabling playback. -/
theorem failed_completion_fixed_message (cs : CompletedSession)
    (s : AppState) (hsu : isSuccessRC cs.returnCode = false)
    (hca : isCancelRC cs.returnCode = false) (_hstr : s.isStreaming = true) :
    (ffmpegCompletionCallback cs s).errorMessage =
      "FFmpeg Error! Check console logs for details." ∧
    (ffmpegCompletionCallback cs s).isStreaming = false := by
  unfold ffmpegCompletionCallback
  by_cases hm : s.ffmpegSessionId = some cs.sessionId <;> simp [hm, hsu, hca]

/-- Witness for the amended C3 at the concrete Failed completion with log
text X. -/
theorem failed_completion_fixed_message_witness :
    isSuccessRC failedCompletionX.returnCode = false ∧
    isCancelRC failedCompletionX.returnCode = false ∧
    streamingState.isStreaming = true ∧
    ((ffmpegCompletionCallback failedCompletionX streamingState).errorMessage =
      "FFmpeg Error! Check console logs for details." ∧
     (ffmpegCompletionCallback failedCompletionX streamingState).isStreaming =
       false) :=
  ⟨by decide, by decide, rfl,
   failed_completion_fixed_message failedCompletionX streamingState
     (by decide) (by decide) rfl⟩

/-! Claim C4 -/

/-- Claim C4 is false as stated: after a first-send transport failure the
catch block sets an error message but then awaits cleanup, which resets
the message to the empty string — so once start settles no non-empty
error message is observable (the state is fully released instead). -/
theorem send_failure_clears_error_message :
    (handleStartStream envSendFail cenv0 initialState).1 = initialState ∧
    (handleStartStream envSendFail cenv0 initialState).1.errorMessage = "" := by
  decide

/-- Claim C4, amended: if the bind succeeds and the first handshake send
fails with a transport error, start settles fully released — the command
channel has been closed and is null, no relay was ever launched — but the
error message is empty: the catch sets "Initialization failed: ..." and
the ensuing cleanup immediately clears it, so no error state remains
observable. -/
theorem send_failure_full_teardown (env : StartEnv) (cenv : CleanupEnv)
    (s : AppState) (m : String) (hs : s.isStreaming = false)
    (hc : s.commandSocket = none) (hf : s.ffmpegSessionId = none)
    (hb : env.bindResult = Except.ok ())
    (h1 : env.sendResult "command" = Except.error m) :
    handleStartStream env cenv s =
      (initialState,
       [Event.createSocket, Event.bindSocket LOCAL_COMMAND_PORT_BIND,
        Event.send "command", Event.closeSocket]) ∧
    (∀ c : String,
      Event.launchRelay c ∉ (handleStartStream env cenv s).2) := by
  have he := hss_sendCommandFail env cenv s m hs hc hf hb h1
  refine ⟨he, ?_⟩
  intro c
  rw [he]
  simp

/-- Witness for the amended C4 on the concrete send-failure
environment. -/
theorem send_failure_full_teardown_witness :
    envSendFail.bindResult = Except.ok () ∧
    envSendFail.sendResult "command" = Except.error "EHOSTUNREACH" ∧
    (handleStartStream envSendFail cenv0 initialState =
      (initialState,
       [Event.createSocket, Event.bindSocket LOCAL_COMMAND_PORT_BIND,
        Event.send "command", Event.closeSocket]) ∧
     (∀ c : String,
       Event.launchRelay c ∉ (handleStartStream envSendFail cenv0 initialState).2)) :=
  ⟨rfl, rfl,
   send_failure_full_teardown envSendFail cenv0 initialState "EHOSTUNREACH"
     rfl rfl rfl rfl rfl⟩

/-! Claim C5 -/

/-- Claim C5: for every settled sequence of operations (start presses,
disconnect presses, socket faults, relay completions), if the state reads
as Idle — empty error message and streaming off — then the command
channel is null and the relay session handle is absent: no resource
leaks. -/
theorem idle_implies_released (ops : List Op)
    (h1 : (run ops).errorMessage = "")
    (h2 : (run ops).isStreaming = false) :
    (run ops).commandSocket = none ∧ (run ops).ffmpegSessionId = none :=
  run_leakFree ops ⟨h1, h2⟩

/-- Witness for C5 on a concrete start-then-stop sequence. -/
theorem idle_implies_released_witness :
    (run [Op.start envOk cenv0, Op.stop cenvThrow]).errorMessage = "" ∧
    (run [Op.start envOk cenv0, Op.stop cenvThrow]).isStreaming = false ∧
    ((run [Op.start envOk cenv0, Op.stop cenvThrow]).commandSocket = none ∧
     (run [Op.start envOk cenv0, Op.stop cenvThrow]).ffmpegSessionId = none) :=
  ⟨rfl, rfl, idle_implies_released [Op.start envOk cenv0, Op.stop cenvThrow]
    rfl rfl⟩

/-! Claim C6 -/

/-- Claim C6: a start whose bind and both sends succeed performs, in
strict order, the socket creation, the bind to port 9000, the send of
"command", a 500 ms delay, the send of "streamon", a 500 ms delay, and
only then the relay launch — exactly two handshake commands, each
followed by its settling delay, regardless of the launch outcome. -/
theorem handshake_strict_sequence (env : StartEnv) (cenv : CleanupEnv)
    (s : AppState) (hs : s.isStreaming = false)
    (hc : s.commandSocket = none) (hf : s.ffmpegSessionId = none)
    (hb : env.bindResult = Except.ok ())
    (h1 : env.sendResult "command" = Except.ok ())
    (h2 : env.sendResult "streamon" = Except.ok ()) :
    (handleStartStream env cenv s).2 =
      [Event.createSocket, Event.bindSocket LOCAL_COMMAND_PORT_BIND,
       Event.send "command", Event.delayMs 500,
       Event.send "streamon", Event.delayMs 500,
       Event.launchRelay ffmpegCommandString] := by
  rcases hl : env.launchResult with m | sid
  · rw [hss_launchFail env cenv s m hs hc hf hb h1 h2 hl]
    rfl
  · rw [hss_ok env cenv s sid hs hc hf hb h1 h2 hl]
    rfl

/-- Witness for C6 on the all-success environment. -/
theorem handshake_strict_sequence_witness :
    envOk.bindResult = Except.ok () ∧
    envOk.sendResult "command" = Except.ok () ∧
    envOk.sendResult "streamon" = Except.ok () ∧
    (handleStartStream envOk cenv0 initialState).2 =
      [Event.createSocket, Event.bindSocket LOCAL_COMMAND_PORT_BIND,
       Event.send "command", Event.delayMs 500,
       Event.send "streamon", Event.delayMs 500,
       Event.launchRelay ffmpegCommandString] :=
  ⟨rfl, rfl, rfl,
   handshake_strict_sequence envOk cenv0 initialState rfl rfl rfl rfl rfl rfl⟩

/-! Claim C7 -/

/-- Claim C7 is false as stated: the socket fault handler sets the error
message but the cleanup it triggers resets it to the empty string, so
after the handler settles no error is observable. -/
theorem socket_fault_error_not_observable :
    (socketErrorHandler cenv0 "ECONNRESET" streamingState).1.errorMessage =
      "" := by
  decide

/-- Claim C7, amended: an asynchronous socket fault on an open command
channel triggers full teardown — afterwards the channel is null, the
relay handle is absent, streaming is off and the socket was closed — but
the error message the handler sets is immediately cleared by that
teardown, so no error remains observable. -/
theorem socket_fault_teardown (cenv : CleanupEnv) (m : String)
    (s : AppState) (h : s.commandSocket.isSome = true) :
    socketErrorHandler cenv m s = (initialState, cleanupTrace s) ∧
    Event.closeSocket ∈ cleanupTrace s := by
  constructor
  · simp [socketErrorHandler, cleanupE_eq, cleanupTrace]
  · obtain ⟨em, ist, sock, ff⟩ := s
    cases sock with
    | none => simp at h
    | some h0 => cases ff <;> simp [cleanupTrace]

/-- Witness for the amended C7 on a concrete streaming state. -/
theorem socket_fault_teardown_witness :
    streamingState.commandSocket.isSome = true ∧
    (socketErrorHandler cenvThrow "ECONNRESET" streamingState =
      (initialState, cleanupTrace streamingState) ∧
     Event.closeSocket ∈ cleanupTrace streamingState) :=
  ⟨rfl, socket_fault_teardown cenvThrow "ECONNRESET" streamingState rfl⟩

/-! Claim C8 -/

/-- Claim C8: pressing Start while streaming, or while a socket or relay
handle already exists (which covers the Handshaking window, during which
the socket handle is held), is a no-op: the state is returned unchanged
and the trace is empty — no socket is created or bound and no relay is
launched. -/
theorem start_reentrancy_noop (env : StartEnv) (cenv : CleanupEnv)
    (s : AppState)
    (h : s.isStreaming = true ∨ s.commandSocket ≠ none ∨
      s.ffmpegSessionId ≠ none) :
    handleStartStream env cenv s = (s, []) := by
  apply hss_guard
  rcases h with h | h | h
  · exact Or.inl h
  · refine Or.inr (Or.inl ?_)
    cases hc : s.commandSocket with
    | none => exact absurd hc h
    | some v => rfl
  · refine Or.inr (Or.inr ?_)
    cases hf : s.ffmpegSessionId with
    | none => exact absurd hf h
    | some v => rfl

/-- Witness for C8: Start pressed while already streaming. -/
theorem start_reentrancy_noop_witness :
    (streamingState.isStreaming = true ∨ streamingState.commandSocket ≠ none ∨
      streamingState.ffmpegSessionId ≠ none) ∧
    handleStartStream envOk cenv0 streamingState = (streamingState, []) :=
  ⟨Or.inl rfl, start_reentrancy_noop envOk cenv0 streamingState (Or.inl rfl)⟩

/-! Claim C9 -/

/-- Claim C9: cleanup is total and idempotent. For every state and every
teardown environment — including ones where cancel and close throw — it
returns normally (never raises: the Except is ok) and lands in the fully
released state; and run again from that state (the Idle state, both
handles null) it is a no-op: the state is unchanged and no teardown
action is performed. -/
theorem stop_total_idempotent (env env2 : CleanupEnv) (s : AppState) :
    cleanupE env s = Except.ok (initialState, cleanupTrace s) ∧
    cleanupE env2 initialState = Except.ok (initialState, []) :=
  ⟨cleanupE_eq env s, cleanupE_eq env2 initialState⟩

/-! Claim C10 -/

/-- Claim C10: a Success completion while streaming leaves the streaming
flag, the error message and the socket unchanged; the tracked relay
handle is cleared exactly when it matches the completed session, and left
alone otherwise. -/
theorem success_completion_frame (cs : CompletedSession) (s : AppState)
    (hrc : isSuccessRC cs.returnCode = true) (_hstr : s.isStreaming = true) :
    (ffmpegCompletionCallback cs s).isStreaming = s.isStreaming ∧
    (ffmpegCompletionCallback cs s).errorMessage = s.errorMessage ∧
    (ffmpegCompletionCallback cs s).commandSocket = s.commandSocket ∧
    (s.ffmpegSessionId = some cs.sessionId →
      (ffmpegCompletionCallback cs s).ffmpegSessionId = none) ∧
    (s.ffmpegSessionId ≠ some cs.sessionId →
      (ffmpegCompletionCallback cs s).ffmpegSessionId = s.ffmpegSessionId) := by
  unfold ffmpegCompletionCallback
  by_cases hm : s.ffmpegSessionId = some cs.sessionId <;> simp [hm, hrc]

/-- Witness for C10 at a concrete matching Success completion. -/
theorem success_completion_frame_witness :
    isSuccessRC successCompletion.returnCode = true ∧
    streamingState.isStreaming = true ∧
    ((ffmpegCompletionCallback successCompletion streamingState).isStreaming =
        streamingState.isStreaming ∧
     (ffmpegCompletionCallback successCompletion streamingState).errorMessage =
        streamingState.errorMessage ∧
     (ffmpegCompletionCallback successCompletion streamingState).commandSocket =
        streamingState.commandSocket ∧
     (streamingState.ffmpegSessionId = some successCompletion.sessionId →
       (ffmpegCompletionCallback successCompletion
           streamingState).ffmpegSessionId = none) ∧
     (streamingState.ffmpegSessionId ≠ some successCompletion.sessionId →
       (ffmpegCompletionCallback successCompletion
           streamingState).ffmpegSessionId = streamingState.ffmpegSessionId)) :=
  ⟨by decide, rfl,
   success_completion_frame successCompletion streamingState (by decide) rfl⟩

end TelloStream
